import Mathlib

set_option maxRecDepth 100000

/-!
Shallow embedding of the countdown-timer web component in `src/component.js`
(class `CountdownElement`), together with the near-duplicate copy of its
`set targetTimestamp` accessor shown in `src/README.md`.

Modelling conventions:
* JavaScript numbers that arise here are exact integers (millisecond
  timestamps and durations, far below 2^53) or `NaN`; they are modelled by
  `JSNum := Option Int` with `none` standing for `NaN`.
* The values the component stores or receives (`undefined`, `null`, numbers,
  strings) are modelled by the inductive `JSVal`.
* The host's `Date` string parsing (`+new Date(string)`) is an external
  primitive; it is a parameter `parse : String → JSNum` of every operation
  that needs it (`none` models an invalid date, i.e. `NaN`).
* The host's timer table (`setTimeout` / `clearTimeout`) is modelled inside
  the component state: `pending` is the list of live one-shot timers, each
  with a fresh positive id and the requested delay; `setTimeout` appends a
  timer and returns its id (which the source code discards), `clearTimeout h`
  removes the timer with id `h`.
* Writes to `this._countdownDescElement.innerText` are logged in `writes`
  (most recent first) and also update the element's current text.
-/

/-- A JavaScript number as it occurs in this component: an exact integer, or
`NaN` (modelled as `none`). -/
abbrev JSNum := Option Int

/-- The JavaScript values the component stores in `_targetTimestamp` or
receives as input to the `targetTimestamp` setter. -/
inductive JSVal where
  | undef : JSVal
  | jnull : JSVal
  | num (n : Int) : JSVal
  | nan : JSVal
  | str (s : String) : JSVal
deriving DecidableEq, Repr

/-- Lift a `JSNum` back into a `JSVal` (a finite number or `NaN`). -/
def ofJSNum : JSNum → JSVal
  | some n => JSVal.num n
  | none => JSVal.nan

/-- JavaScript truthiness test (`!x` in the source negates this): among the
values modelled here, `undefined`, `null`, `0`, `NaN` and `""` are falsy. -/
def isFalsy : JSVal → Bool
  | JSVal.undef => true
  | JSVal.jnull => true
  | JSVal.num n => n = 0
  | JSVal.nan => true
  | JSVal.str s => s = ""

/-- JavaScript `ToNumber` coercion as used by `this._targetTimestamp - start`.
The setter always converts strings before storing, so a stored string target
is unreachable; the string case is mapped to `NaN` and is never load-bearing. -/
def jsToNumber : JSVal → JSNum
  | JSVal.undef => none
  | JSVal.jnull => some 0
  | JSVal.num n => some n
  | JSVal.nan => none
  | JSVal.str _ => none

/-- `Math.floor(a / d)` on JS numbers with an integer divisor: floor division,
`NaN`-propagating. -/
def jsFdiv : JSNum → Int → JSNum
  | some a, d => some (Int.fdiv a d)
  | none, _ => none

/-- JS subtraction, `NaN`-propagating. -/
def jsSub : JSNum → JSNum → JSNum
  | some a, some b => some (a - b)
  | _, _ => none

/-- JS multiplication by an integer constant, `NaN`-propagating. -/
def jsMulC : JSNum → Int → JSNum
  | some a, c => some (a * c)
  | none, _ => none

/-- JS comparison `x <= b`: false when `x` is `NaN`. -/
def jsLe (a : JSNum) (b : Int) : Bool :=
  match a with
  | some x => decide (x ≤ b)
  | none => false

/-- JS comparison `x > b`: false when `x` is `NaN`. -/
def jsGt (a : JSNum) (b : Int) : Bool :=
  match a with
  | some x => decide (b < x)
  | none => false

/-- JS strict inequality `x !== 1`: true when `x` is `NaN`. -/
def jsNe1 : JSNum → Bool
  | some x => decide (x ≠ 1)
  | none => true

/-- JS template-literal rendering of a number (`NaN` prints as `"NaN"`). -/
def jsNumToString : JSNum → String
  | some n => toString n
  | none => "NaN"

/-- The arrow function `formatTime` inside `timeMsDiffToString`
(src/component.js lines 147-150): when `time > 0 || showZero`, render the
value, a space, the unit name, a plural `s` when `time !== 1`, and a
trailing `", "` separator; otherwise the empty string. -/
def formatTime (time : JSNum) (desc : String) (showZero : Bool) : String :=
  if jsGt time 0 || showZero then
    jsNumToString time ++ " " ++ desc ++ (if jsNe1 time then "s" else "") ++ ", "
  else ""

/-- The six unit values computed by `timeMsDiffToString`
(src/component.js lines 126-145): successive `Math.floor` divisions by the
fixed constants, subtracting the consumed amount before each next unit. -/
def timeMsDiffComponents (ms : JSNum) : JSNum × JSNum × JSNum × JSNum × JSNum × JSNum :=
  let elapsed := ms
  let years := jsFdiv elapsed (1000 * 60 * 60 * 24 * 365)
  let elapsed := jsSub elapsed (jsMulC years (1000 * 60 * 60 * 24 * 365))
  let months := jsFdiv elapsed (1000 * 60 * 60 * 24 * 28)
  let elapsed := jsSub elapsed (jsMulC months (1000 * 60 * 60 * 24 * 28))
  let days := jsFdiv elapsed (1000 * 60 * 60 * 24)
  let elapsed := jsSub elapsed (jsMulC days (1000 * 60 * 60 * 24))
  let hours := jsFdiv elapsed (1000 * 60 * 60)
  let elapsed := jsSub elapsed (jsMulC hours (1000 * 60 * 60))
  let minutes := jsFdiv elapsed (1000 * 60)
  let elapsed := jsSub elapsed (jsMulC minutes (1000 * 60))
  let seconds := jsFdiv elapsed 1000
  (years, months, days, hours, minutes, seconds)

/-- The formatting tail of `timeMsDiffToString` (src/component.js lines
147-159): concatenate the per-unit segments in unit order, then
`time.substring(0, time.length - 2)`. -/
def renderComponents : JSNum × JSNum × JSNum × JSNum × JSNum × JSNum → String
  | (years, months, days, hours, minutes, seconds) =>
    let time :=
      formatTime years "year" false ++
      formatTime months "month" false ++
      formatTime days "day" false ++
      formatTime hours "hour" false ++
      formatTime minutes "minute" false ++
      formatTime seconds "second" true
    time.take (time.length - 2)

/-- `CountdownElement.timeMsDiffToString` (src/component.js lines 126-160),
split here into the unit decomposition and the formatting tail. -/
def timeMsDiffToString (ms : JSNum) : String :=
  renderComponents (timeMsDiffComponents ms)

example : timeMsDiffToString (some 0) = "0 seconds" := by decide
example : timeMsDiffToString (some 1000) = "1 second" := by decide
example : timeMsDiffToString (some 61000) = "1 minute, 1 second" := by decide

/-- One live one-shot timer of the host: its id (as returned by `setTimeout`)
and the delay in milliseconds it was scheduled with. -/
structure Timer where
  id : Nat
  delay : Int
deriving DecidableEq, Repr

/-- State of one `CountdownElement` instance together with the host's timer
table and a log of render-sink writes. `countdownDescElement` is `none` when
`this._countdownDescElement` is `null`, otherwise `some` of the element's
current `innerText`. `tickTimer` is `none` when `this._tickTimer` is `null`.
`pending` lists the live timers, `nextId` is the next fresh timer id (timer
ids are positive), and `writes` logs every `innerText` assignment made by
`nextTick`, most recent first. -/
structure CState where
  countdownDescElement : Option String
  tickTimer : Option Nat
  targetTimestamp : JSVal
  pending : List Timer
  nextId : Nat
  writes : List String
deriving DecidableEq, Repr

/-- The state right after `constructor()` (src/component.js lines 10-16):
both element and timer refs are `null`; `_targetTimestamp` was never
assigned, so reading it yields `undefined`. -/
def initState : CState :=
  { countdownDescElement := none
    tickTimer := none
    targetTimestamp := JSVal.undef
    pending := []
    nextId := 1
    writes := [] }

/-- `clearTimeout(h)`: remove the pending timer with id `h`, if any. -/
def clearTimeout (h : Nat) (s : CState) : CState :=
  { s with pending := s.pending.filter (fun t => t.id ≠ h) }

/-- The delay computed by `nextTick` for the next tick (src/component.js
lines 116-117): `nextTime = Math.floor((start + 1000)/1000)` and
`diff = nextTime - start`. Note the source does not multiply `nextTime`
back by 1000. -/
def tickDelay (now : Int) : Int :=
  Int.fdiv (now + 1000) 1000 - now

/-- `CountdownElement.nextTick` (src/component.js lines 98-120) at current
time `now`: return early when the element ref is `null`; otherwise write
either `"Already elapsed!"` or the formatted difference to the element, then
schedule the next tick via `setTimeout`, whose returned handle the source
discards (it is never stored in `_tickTimer`). -/
def nextTick (now : Int) (s : CState) : CState :=
  match s.countdownDescElement with
  | none => s
  | some _ =>
    let timeDiff := jsSub (jsToNumber s.targetTimestamp) (some now)
    let descStr :=
      if jsLe timeDiff 0 then "Already elapsed!" else timeMsDiffToString timeDiff
    let s1 : CState :=
      { s with countdownDescElement := some descStr, writes := descStr :: s.writes }
    { s1 with
        pending := s1.pending ++ [{ id := s1.nextId, delay := tickDelay now }]
        nextId := s1.nextId + 1 }

/-- The input normalization at the top of `set targetTimestamp` in
src/component.js lines 30-35: a falsy input (`!timestamp`) becomes `0`, a
(necessarily non-empty) string is date-parsed, anything else is kept as is. -/
def normalizeComponentJs (parse : String → JSNum) (v : JSVal) : JSVal :=
  if isFalsy v then JSVal.num 0
  else
    match v with
    | JSVal.str t => ofJSNum (parse t)
    | x => x

/-- The input normalization of the near-duplicate `set targetTimestamp` copy
embedded in src/README.md lines 72-77: only `timestamp === null` becomes `0`,
a string is date-parsed, anything else is kept as is. -/
def normalizeReadme (parse : String → JSNum) (v : JSVal) : JSVal :=
  match v with
  | JSVal.jnull => JSVal.num 0
  | JSVal.str t => ofJSNum (parse t)
  | x => x

/-- `set targetTimestamp` (src/component.js lines 30-41) at current time
`now`: normalize and store the input, run the `clearTimeout` guard on
`_tickTimer`, then synchronously call `nextTick`. -/
def setTargetTimestamp (parse : String → JSNum) (now : Int) (v : JSVal) (s : CState) : CState :=
  let s1 := { s with targetTimestamp := normalizeComponentJs parse v }
  let s2 :=
    match s1.tickTimer with
    | some h => clearTimeout h s1
    | none => s1
  nextTick now s2

/-- `connectedCallback` (src/component.js lines 68-76) at current time `now`:
create the text child (fresh `div`, empty `innerText`), store it as the
render element, then re-assign `this.targetTimestamp = this.targetTimestamp`
to run the setter on the current raw field value. -/
def connectedCallback (parse : String → JSNum) (now : Int) (s : CState) : CState :=
  let s1 := { s with countdownDescElement := some "" }
  setTargetTimestamp parse now s1.targetTimestamp s1

/-- `disconnectedCallback` (src/component.js lines 84-92): run the
`clearTimeout` guard on `_tickTimer`, then null out the target, the element
ref and the timer ref. -/
def disconnectedCallback (s : CState) : CState :=
  let s1 :=
    match s.tickTimer with
    | some h => clearTimeout h s
    | none => s
  { s1 with
      targetTimestamp := JSVal.jnull
      countdownDescElement := none
      tickTimer := none }

/-- `attributeChangedCallback` (src/component.js lines 54-60): on the
`"target-timestamp"` attribute, run the `targetTimestamp` setter on the new
value; other attribute names do nothing. -/
def attributeChangedCallback (parse : String → JSNum) (now : Int)
    (name : String) (newValue : JSVal) (s : CState) : CState :=
  if name = "target-timestamp" then setTargetTimestamp parse now newValue s else s

/-- The externally triggerable events of one component instance: the setter,
an observed attribute change, the two lifecycle callbacks, and the host
firing a pending one-shot timer (which removes it from the timer table and
invokes the `nextTick` closure). Time-dependent events carry the current
wall-clock time `now` in ms. -/
inductive Op where
  | setTarget (now : Int) (v : JSVal) : Op
  | attrChanged (now : Int) (name : String) (newValue : JSVal) : Op
  | connect (now : Int) : Op
  | disconnect : Op
  | fire (now : Int) (h : Nat) : Op
deriving DecidableEq, Repr

/-- Whether an operation is the `connectedCallback` (re-activation) event. -/
def isConnect : Op → Bool
  | Op.connect _ => true
  | _ => false

/-- One step of the component under an external event. -/
def step (parse : String → JSNum) (s : CState) : Op → CState
  | Op.setTarget now v => setTargetTimestamp parse now v s
  | Op.attrChanged now name newValue => attributeChangedCallback parse now name newValue s
  | Op.connect now => connectedCallback parse now s
  | Op.disconnect => disconnectedCallback s
  | Op.fire now h =>
    if s.pending.any (fun t => t.id = h) then
      nextTick now (clearTimeout h s)
    else s

/-- Run a sequence of external events from the freshly constructed state. -/
def run (parse : String → JSNum) (ops : List Op) : CState :=
  ops.foldl (step parse) initState

/-- A stub for the host's `Date` string parsing that always yields an invalid
date (`NaN`); on the inputs used below (the empty string, which no date
format matches) this agrees with the host primitive. -/
def dateParseStub : String → JSNum := fun _ => none

/-- Modelled from the spec: the six-unit decomposition by successive integer
division with the fixed divisors 365*24*3600*1000 (years), 28*24*3600*1000
(months), 24*3600*1000 (days), 3600*1000 (hours), 60*1000 (minutes), 1000
(seconds), subtracting the consumed amount before each next unit. -/
def specComponents (n : Nat) : Nat × Nat × Nat × Nat × Nat × Nat :=
  let y := n / (365 * 24 * 3600 * 1000)
  let r1 := n - y * (365 * 24 * 3600 * 1000)
  let mo := r1 / (28 * 24 * 3600 * 1000)
  let r2 := r1 - mo * (28 * 24 * 3600 * 1000)
  let d := r2 / (24 * 3600 * 1000)
  let r3 := r2 - d * (24 * 3600 * 1000)
  let h := r3 / (3600 * 1000)
  let r4 := r3 - h * (3600 * 1000)
  let mi := r4 / (60 * 1000)
  let r5 := r4 - mi * (60 * 1000)
  let s := r5 / 1000
  (y, mo, d, h, mi, s)

/-- Modelled from the spec: a unit contributes a segment of its value, the
unit name, a plural `s` unless the value equals 1, and a `", "` separator,
but only if the value is greater than zero or the unit is flagged to show
zero. -/
def specSegment (v : Nat) (name : String) (showZero : Bool) : String :=
  if decide (0 < v) || showZero then
    toString v ++ " " ++ name ++ (if v = 1 then "" else "s") ++ ", "
  else ""

/-- Modelled from the spec: concatenate the contributing segments in unit
order (seconds always contributing) and strip the trailing separator. -/
def specRender : Nat × Nat × Nat × Nat × Nat × Nat → String
  | (y, mo, d, h, mi, s) =>
    let joined :=
      specSegment y "year" false ++
      specSegment mo "month" false ++
      specSegment d "day" false ++
      specSegment h "hour" false ++
      specSegment mi "minute" false ++
      specSegment s "second" true
    joined.take (joined.length - 2)

/-- Modelled from the spec: the whole duration formatter, decomposition
followed by rendering. -/
def specFormat (n : Nat) : String :=
  specRender (specComponents n)

/-- Embed a tuple of natural unit values as finite JS numbers. -/
def liftComponents : Nat × Nat × Nat × Nat × Nat × Nat →
    JSNum × JSNum × JSNum × JSNum × JSNum × JSNum
  | (y, mo, d, h, mi, s) =>
    (some (y : Int), some (mo : Int), some (d : Int),
     some (h : Int), some (mi : Int), some (s : Int))

/-- Modelled from the spec: the delay to the next whole-second wall-clock
boundary relative to `now`, i.e. floor((now + 1000)/1000)*1000 - now. -/
def specNextTickDelay (now : Int) : Int :=
  Int.fdiv (now + 1000) 1000 * 1000 - now

/-- On a natural number, the JS floor division of the component agrees with
natural division. -/
lemma jsFdiv_nat (m c : Nat) :
    jsFdiv (some (m : Int)) ((c : Nat) : Int) = some ((m / c : Nat) : Int) := by
  simp only [jsFdiv]
  rw [Int.fdiv_eq_tdiv (Int.ofNat_nonneg m) (Int.ofNat_nonneg c), ← Int.ofNat_tdiv]

/-- Subtracting the consumed amount of a unit agrees with natural
subtraction of the consumed amount. -/
lemma jsSubMul_nat (m c : Nat) :
    jsSub (some (m : Int)) (jsMulC (some ((m / c : Nat) : Int)) ((c : Nat) : Int))
      = some ((m - m / c * c : Nat) : Int) := by
  simp only [jsSub, jsMulC]
  congr 1
  rw [Nat.cast_sub (Nat.div_mul_le_self m c)]
  push_cast
  ring

/-- The unit decomposition of the source agrees with the spec's fixed-divisor
decomposition on every non-negative duration. -/
lemma components_eq (n : Nat) :
    timeMsDiffComponents (some (n : Int)) = liftComponents (specComponents n) := by
  have c1 : (1000 * 60 * 60 * 24 * 365 : Int) = ((1000 * 60 * 60 * 24 * 365 : Nat) : Int) := by
    norm_num
  have c2 : (1000 * 60 * 60 * 24 * 28 : Int) = ((1000 * 60 * 60 * 24 * 28 : Nat) : Int) := by
    norm_num
  have c3 : (1000 * 60 * 60 * 24 : Int) = ((1000 * 60 * 60 * 24 : Nat) : Int) := by
    norm_num
  have c4 : (1000 * 60 * 60 : Int) = ((1000 * 60 * 60 : Nat) : Int) := by
    norm_num
  have c5 : (1000 * 60 : Int) = ((1000 * 60 : Nat) : Int) := by
    norm_num
  have c6 : (1000 : Int) = ((1000 : Nat) : Int) := by
    norm_num
  simp only [timeMsDiffComponents, specComponents, liftComponents]
  rw [c1, c2, c3, c4, c5, c6]
  simp only [jsFdiv_nat, jsSubMul_nat]

/-- On a natural unit value, the source's `formatTime` produces exactly the
spec's segment. -/
lemma formatTime_segment (v : Nat) (name : String) (sz : Bool) :
    formatTime (some ((v : Nat) : Int)) name sz = specSegment v name sz := by
  have hgt : jsGt (some ((v : Nat) : Int)) 0 = decide (0 < v) := by
    simp [jsGt]
  have hne : jsNe1 (some ((v : Nat) : Int)) = decide (v ≠ 1) := by
    simp [jsNe1]
  have hts : jsNumToString (some ((v : Nat) : Int)) = toString v := rfl
  unfold formatTime specSegment
  rw [hgt, hne, hts]
  by_cases h1 : v = 1
  · subst h1
    simp
  · simp [h1]

/-- Rendering lifted natural components with the source's formatter tail
agrees with the spec's rendering. -/
lemma render_lift (t : Nat × Nat × Nat × Nat × Nat × Nat) :
    renderComponents (liftComponents t) = specRender t := by
  obtain ⟨y, mo, d, h, mi, s⟩ := t
  simp only [liftComponents, renderComponents, specRender, formatTime_segment]

/-- `nextTick` never touches the `_tickTimer` field (the `setTimeout` handle
is discarded by the source). -/
lemma nextTick_tickTimer (now : Int) (s : CState) :
    (nextTick now s).tickTimer = s.tickTimer := by
  rcases s with ⟨e, tt, tv, p, ni, w⟩
  cases e <;> rfl

/-- `nextTick` never touches the stored target timestamp. -/
lemma nextTick_target (now : Int) (s : CState) :
    (nextTick now s).targetTimestamp = s.targetTimestamp := by
  rcases s with ⟨e, tt, tv, p, ni, w⟩
  cases e <;> rfl

/-- No operation ever makes `_tickTimer` non-null: each step preserves
`tickTimer = none`. -/
lemma step_tickTimer_none (parse : String → JSNum) (s : CState) (op : Op)
    (h : s.tickTimer = none) : (step parse s op).tickTimer = none := by
  rcases s with ⟨e, tt, tv, p, ni, w⟩
  dsimp only at h
  subst h
  cases op with
  | setTarget now v => cases e <;> rfl
  | attrChanged now name newValue =>
    by_cases hn : name = "target-timestamp"
    · subst hn
      cases e <;> simp [step, attributeChangedCallback, setTargetTimestamp, nextTick]
    · simp [step, attributeChangedCallback, hn]
  | connect now => cases e <;> rfl
  | disconnect => cases e <;> rfl
  | fire now hh =>
    by_cases hp : (p.any fun t => t.id = hh) = true
    · cases e <;> simp [step, hp, nextTick, clearTimeout]
    · simp [step, hp]

/-- Folding any event sequence from a state with a null timer ref keeps the
timer ref null. -/
lemma foldl_tickTimer_none (parse : String → JSNum) (ops : List Op) (s : CState)
    (h : s.tickTimer = none) : (ops.foldl (step parse) s).tickTimer = none := by
  induction ops generalizing s with
  | nil => exact h
  | cons op ops ih => exact ih _ (step_tickTimer_none parse s op h)

/-- After disconnection (element ref null), any non-`connect` event neither
rebinds the element nor writes to the render sink. -/
lemma step_stays_dead (parse : String → JSNum) (s : CState) (op : Op)
    (he : s.countdownDescElement = none) (hop : isConnect op = false) :
    (step parse s op).countdownDescElement = none ∧ (step parse s op).writes = s.writes := by
  rcases s with ⟨e, tt, tv, p, ni, w⟩
  dsimp only at he
  subst he
  cases op with
  | setTarget now v => cases tt <;> exact ⟨rfl, rfl⟩
  | attrChanged now name newValue =>
    by_cases hn : name = "target-timestamp"
    · subst hn
      cases tt <;> exact ⟨rfl, rfl⟩
    · simp [step, attributeChangedCallback, hn]
  | connect now => simp [isConnect] at hop
  | disconnect => cases tt <;> exact ⟨rfl, rfl⟩
  | fire now hh =>
    by_cases hp : (p.any fun t => t.id = hh) = true
    · cases tt <;> simp [step, hp, nextTick, clearTimeout]
    · simp [step, hp]

/-- Folding connect-free events from a disconnected state produces no
render-sink writes and keeps the element ref null. -/
lemma foldl_stays_dead (parse : String → JSNum) (ops : List Op) (s : CState)
    (he : s.countdownDescElement = none) (h : ∀ op ∈ ops, isConnect op = false) :
    (ops.foldl (step parse) s).countdownDescElement = none
    ∧ (ops.foldl (step parse) s).writes = s.writes := by
  induction ops generalizing s with
  | nil => exact ⟨he, rfl⟩
  | cons op ops ih =>
    have h1 := step_stays_dead parse s op he (h op (by simp))
    have h2 := ih (step parse s op) h1.1 (fun o ho => h o (by simp [ho]))
    exact ⟨h2.1, h2.2.trans h1.2⟩

/-- Disconnecting leaves the element ref null. -/
lemma disconnectedCallback_element (s : CState) :
    (disconnectedCallback s).countdownDescElement = none := by
  rcases s with ⟨e, tt, tv, p, ni, w⟩
  cases tt <;> rfl

/-- The target stored by the full setter is the component's normalization of
the input. -/
lemma setTarget_target (parse : String → JSNum) (now : Int) (v : JSVal) (s : CState) :
    (setTargetTimestamp parse now v s).targetTimestamp = normalizeComponentJs parse v := by
  rcases s with ⟨e, tt, tv, p, ni, w⟩
  cases tt <;> cases e <;> rfl

/-- Modelled from the spec (amended for C8): falsy inputs — null/absent,
the number 0, NaN, and the empty string — normalize to the unset sentinel 0;
any other string is converted to its millisecond timestamp via date parsing;
any other numeric input is stored as-is. -/
def normalizeSpecAmended (parse : String → JSNum) : JSVal → JSVal
  | JSVal.undef => JSVal.num 0
  | JSVal.jnull => JSVal.num 0
  | JSVal.nan => JSVal.num 0
  | JSVal.num n => if n = 0 then JSVal.num 0 else JSVal.num n
  | JSVal.str t => if t = "" then JSVal.num 0 else ofJSNum (parse t)

/-- C1: at the captured time now = 10000 ms, `nextTick` schedules the next
tick with delay floor((now+1000)/1000) - now = -9989 ms (the source forgets
to multiply the floored quotient back by 1000), not the claimed
floor((now+1000)/1000)*1000 - now = 1000 ms to the next whole-second
boundary; the timer actually placed in the host's table carries that
negative delay. -/
theorem tickDelay_off_by_thousand :
    tickDelay 10000 = -9989
    ∧ specNextTickDelay 10000 = 1000
    ∧ tickDelay 10000 ≠ specNextTickDelay 10000
    ∧ (nextTick 10000
        { countdownDescElement := some "", tickTimer := none,
          targetTimestamp := JSVal.num 0, pending := [], nextId := 1,
          writes := [] }).pending = [{ id := 1, delay := -9989 }] := by
  refine ⟨by decide, by decide, by decide, by decide⟩

/-- C2: no pending tick is ever canceled. After `connectedCallback` at t=0
(one tick scheduled) and two immediate `set targetTimestamp` calls, three
tick callbacks are outstanding instead of the claimed single one — the
`setTimeout` handle is discarded, `_tickTimer` stays null, and the
`clearTimeout` guard never runs. -/
theorem setTarget_twice_leaks_timers :
    (run dateParseStub [Op.connect 0, Op.setTarget 0 (JSVal.num 99999),
        Op.setTarget 1 (JSVal.num 99999)]).pending.length = 3
    ∧ (run dateParseStub [Op.connect 0, Op.setTarget 0 (JSVal.num 99999)]).pending.length = 2
    ∧ (run dateParseStub [Op.connect 0, Op.setTarget 0 (JSVal.num 99999),
        Op.setTarget 1 (JSVal.num 99999)]).tickTimer = none := by
  refine ⟨by decide, by decide, by decide⟩

/-- C3: under every sequence of operations from construction, `_tickTimer`
remains null (the handle returned by `setTimeout` in `nextTick` is never
assigned to it); consequently the `clearTimeout` guards are vacuous:
`disconnectedCallback` leaves the host's pending-timer table unchanged, and
the setter only ever appends to it, never cancelling anything. -/
theorem tickTimer_never_assigned (parse : String → JSNum) (ops : List Op) :
    (run parse ops).tickTimer = none
    ∧ (disconnectedCallback (run parse ops)).pending = (run parse ops).pending
    ∧ ∀ now v, ∃ ts, (setTargetTimestamp parse now v (run parse ops)).pending
        = (run parse ops).pending ++ ts := by
  have h0 : (run parse ops).tickTimer = none :=
    foldl_tickTimer_none parse ops initState rfl
  refine ⟨h0, ?_, ?_⟩
  · generalize hs : run parse ops = s at h0
    rcases s with ⟨e, tt, tv, p, ni, w⟩
    dsimp only at h0
    subst h0
    rfl
  · intro now v
    generalize hs : run parse ops = s at h0
    rcases s with ⟨e, tt, tv, p, ni, w⟩
    dsimp only at h0
    subst h0
    cases e with
    | none => exact ⟨[], by simp [setTargetTimestamp, nextTick]⟩
    | some txt =>
      exact ⟨[{ id := ni, delay := tickDelay now }], rfl⟩

/-- C4: after `disconnectedCallback`, as long as the component is not
re-connected, no further operation — a stale timer firing, further setter or
attribute calls, repeated disconnects — ever writes to the render sink: the
write log stays exactly as it was at disconnection (the null element guard
makes every later `nextTick` a no-op). -/
theorem no_writes_after_disconnect (parse : String → JSNum) (ops1 ops2 : List Op)
    (h : ∀ op ∈ ops2, isConnect op = false) :
    (run parse (ops1 ++ Op.disconnect :: ops2)).writes
      = (run parse (ops1 ++ [Op.disconnect])).writes := by
  have e1 : ops1 ++ Op.disconnect :: ops2 = (ops1 ++ [Op.disconnect]) ++ ops2 := by
    simp
  rw [e1]
  unfold run
  rw [List.foldl_append]
  have he : (List.foldl (step parse) initState (ops1 ++ [Op.disconnect])).countdownDescElement
      = none := by
    rw [List.foldl_append]
    exact disconnectedCallback_element _
  exact (foldl_stays_dead parse ops2 _ he h).2

/-- Witness for C4: a concrete run — connect, disconnect, then a stale timer
firing and a setter call — writes nothing beyond what was written before
disconnection. -/
theorem no_writes_after_disconnect_witness :
    (run dateParseStub ([Op.connect 0]
        ++ Op.disconnect :: [Op.fire 2500 1, Op.setTarget 3000 (JSVal.num 7)])).writes
      = (run dateParseStub ([Op.connect 0] ++ [Op.disconnect])).writes :=
  no_writes_after_disconnect dateParseStub [Op.connect 0]
    [Op.fire 2500 1, Op.setTarget 3000 (JSVal.num 7)] (by decide)

/-- C5: a tick with a bound render sink and a numeric target t writes exactly
"Already elapsed!" when t - now <= 0, and the formatter's output for t - now
otherwise. -/
theorem tick_write_elapsed_or_formatted (s : CState) (e : String) (t now : Int)
    (h1 : s.countdownDescElement = some e)
    (h2 : s.targetTimestamp = JSVal.num t) :
    (nextTick now s).writes =
      (if t - now ≤ 0 then "Already elapsed!" else timeMsDiffToString (some (t - now)))
        :: s.writes := by
  rcases s with ⟨e0, tt, tv, p, ni, w⟩
  dsimp only at h1 h2
  subst h1
  subst h2
  simp [nextTick, jsToNumber, jsSub, jsLe]

/-- Witness for C5: with target 5 and now 10 the tick writes the elapsed
literal. -/
theorem tick_write_elapsed_or_formatted_witness :
    (nextTick 10
      { countdownDescElement := some "", tickTimer := none,
        targetTimestamp := JSVal.num 5, pending := [], nextId := 1,
        writes := [] }).writes = ["Already elapsed!"] := by
  have h := tick_write_elapsed_or_formatted
    { countdownDescElement := some "", tickTimer := none,
      targetTimestamp := JSVal.num 5, pending := [], nextId := 1,
      writes := [] } "" 5 10 rfl rfl
  simpa using h

/-- C6: on every non-negative duration the source's unit decomposition equals
the spec's successive integer division by the six fixed divisors, subtracting
the consumed amount before each next unit; and the fixed-unit value of
1 year + 2 days + 3 seconds formats to "1 year, 2 days, 3 seconds". -/
theorem decomposition_fixed_divisors :
    (∀ n : Nat, timeMsDiffComponents (some (n : Int)) = liftComponents (specComponents n))
    ∧ timeMsDiffToString
        (some (365 * 24 * 3600 * 1000 + 2 * (24 * 3600 * 1000) + 3 * 1000))
        = "1 year, 2 days, 3 seconds" := by
  exact ⟨fun n => components_eq n, by decide⟩

/-- C7: on every non-negative duration the source formats exactly as the
spec's per-unit segment policy (value, name, plural unless 1, ", " separator,
contributing only when positive except seconds which always contributes)
with the trailing separator stripped; format(0) = "0 seconds" and
format(1000) = "1 second". -/
theorem segment_policy_and_strip :
    (∀ n : Nat, timeMsDiffToString (some (n : Int)) = specFormat n)
    ∧ timeMsDiffToString (some 0) = "0 seconds"
    ∧ timeMsDiffToString (some 1000) = "1 second" := by
  refine ⟨?_, by decide, by decide⟩
  intro n
  unfold timeMsDiffToString specFormat
  rw [components_eq n, render_lift]

/-- C8 counterexample: for the empty-string input (with the host's date
parsing of "" yielding an invalid date, i.e. NaN), the setter stores the
sentinel 0, not the date-parse result — so "a string input is converted to
its millisecond timestamp via date parsing" fails at "". -/
theorem setter_empty_string_counterexample :
    (setTargetTimestamp dateParseStub 0 (JSVal.str "") initState).targetTimestamp
        = JSVal.num 0
    ∧ ofJSNum (dateParseStub "") = JSVal.nan
    ∧ JSVal.num 0 ≠ JSVal.nan := by
  refine ⟨by decide, by decide, by decide⟩

/-- C8 (amended): the setter normalizes before storing — falsy inputs
(null/absent, 0, NaN, the empty string) become the unset sentinel 0, any
other string is date-parsed, any other number is stored as-is — and the
normalized value is what ends up stored as the target. -/
theorem setter_normalization_spec (parse : String → JSNum) (now : Int)
    (v : JSVal) (s : CState) :
    (setTargetTimestamp parse now v s).targetTimestamp = normalizeSpecAmended parse v := by
  rw [setTarget_target]
  cases v with
  | undef => rfl
  | jnull => rfl
  | nan => rfl
  | num n =>
    by_cases hn : n = 0 <;>
      simp [normalizeComponentJs, normalizeSpecAmended, isFalsy, hn]
  | str t =>
    by_cases ht : t = "" <;>
      simp [normalizeComponentJs, normalizeSpecAmended, isFalsy, ht]

/-- C9: the two near-duplicate setter copies are not extensionally equal:
for any date parsing on which "" is an invalid date (as in JS), the
src/component.js normalization (`!timestamp`) maps the empty string to the
sentinel 0 while the src/README.md normalization (`timestamp === null`)
date-parses it to NaN. -/
theorem setter_copies_differ (parse : String → JSNum) (h : parse "" = none) :
    normalizeComponentJs parse (JSVal.str "") ≠ normalizeReadme parse (JSVal.str "") := by
  simp [normalizeComponentJs, normalizeReadme, isFalsy, ofJSNum, h]

/-- Witness for C9: the two normalizations differ at the empty string under
the stub parse function. -/
theorem setter_copies_differ_witness :
    normalizeComponentJs dateParseStub (JSVal.str "")
      ≠ normalizeReadme dateParseStub (JSVal.str "") :=
  setter_copies_differ dateParseStub rfl

/-- C10: the months component is not bounded by 12: at 31449600000 ms
(364 days, strictly below one fixed 365-day year) the months value is 13 and
the formatted output is "13 months, 0 seconds". -/
theorem months_component_exceeds_twelve :
    (timeMsDiffComponents (some 31449600000)).2.1 = some 13
    ∧ timeMsDiffToString (some 31449600000) = "13 months, 0 seconds"
    ∧ (31449600000 : Int) < 1000 * 60 * 60 * 24 * 365 := by
  refine ⟨by decide, by decide, by decide⟩
